import Mathlib

/-!
Shallow embedding of the Veya personalization/onboarding subsystem
(`veya-api`): the profile document engine (`app/models/user.py`), the
catalog store and its admin mutations (`app/api/routes/admin_templates.py`),
the catalog validator (`app/utils/profile_validator.py`), the active-template
listing and onboarding screen assembly (`app/utils/template_seeder.py`,
`app/api/routes/templates.py`), and the onboarding progress calculator
(`app/api/routes/user.py`).

Modelling conventions:
- Python dicts holding the personalization document are modelled as
  association lists `List (String × PValue)` with first-match lookup.
  Python dict keys are unique, so removing a key is modelled as dropping
  every binding of it, and assignment replaces the first binding in place
  (keeping its position) or appends a fresh one at the end, exactly the
  CPython dict semantics on unique-keyed states.
- Python `None` passed as an update value is `Option.none`; stored values
  are `PValue` (the setters never store Python `None`).
- Timestamps (`datetime.utcnow()`) are `Nat`; the wall clock is passed in
  explicitly as a `now` argument.
- `session.exec(select(...).where(category == c)).first()` is
  `List.find?` on the store; `category` is a unique column, so the first
  match is the only match on reachable stores.
- `HTTPException` raised before `session.commit()` leaves the store
  untouched: each route returns an `Except ApiError` outcome paired with
  the resulting store, and error branches return the input store.
-/

namespace Veya

/-- Python truthiness-carrying JSON-ish value stored in
`personalization_data`.  Python tuples and sets assigned to list fields
are converted to lists by the engine (`list(value)`), so a single list
constructor suffices for stored collection values. -/
inductive PValue where
  | vStr : String → PValue
  | vBool : Bool → PValue
  | vInt : Int → PValue
  | vList : List PValue → PValue

/-- Python `bool(value)` coercion on stored values. -/
def PValue.truthy : PValue → Bool
  | .vStr s => !(s == "")
  | .vBool b => b
  | .vInt n => !(n == 0)
  | .vList xs => !xs.isEmpty

/-- The per-user personalization document: a Python dict from string keys
to values, as an association list with unique keys. -/
abbrev Doc := List (String × PValue)

/-- Python `data.get(key)` / `data.get(key, default)` without the default:
first-match association-list lookup. -/
def lookupDoc : Doc → String → Option PValue
  | [], _ => none
  | (k', v) :: rest, k => if k' == k then some v else lookupDoc rest k

/-- Python `data.pop(key, None)`: remove the binding of `key`.  Dict keys
are unique, so dropping every binding of `key` is the same operation. -/
def popKey (d : Doc) (k : String) : Doc :=
  d.filter (fun p => !(p.1 == k))

/-- Python `data[key] = value`: replace the first binding of `key` in
place (dict assignment keeps the insertion position) or append a fresh
binding at the end. -/
def setKey : Doc → String → PValue → Doc
  | [], k, v => [(k, v)]
  | (k', v') :: rest, k, v =>
      if k' == k then (k, v) :: rest else (k', v') :: setKey rest k v

/-- `UserProfile._LIST_FIELDS` (app/models/user.py lines 123-129). -/
def LIST_FIELDS : List String :=
  ["goals", "challenges", "practice_preferences", "interests", "reminder_times"]

/-- `UserProfile._BOOL_FIELDS` (app/models/user.py line 130). -/
def BOOL_FIELDS : List String := ["data_consent", "marketing_consent"]

/-- Loop body of `UserProfile.update_personalization` (app/models/user.py
lines 149-166): one `key, value` pair of the updates mapping applied to
the working dict.  For every reserved list field, `None` pops the key, a
list/tuple/set is stored as a list, and a bare scalar is wrapped as a
singleton list; for bool fields, `None` pops and anything else stores its
truthiness (`bool(value)`); other keys get plain set-or-pop. -/
def applyUpdate (data : Doc) (k : String) (v : Option PValue) : Doc :=
  if LIST_FIELDS.contains k then
    match v with
    | none => popKey data k
    | some (.vList xs) => setKey data k (.vList xs)
    | some w => setKey data k (.vList [w])
  else if BOOL_FIELDS.contains k then
    match v with
    | none => popKey data k
    | some w => setKey data k (.vBool w.truthy)
  else
    match v with
    | none => popKey data k
    | some w => setKey data k w

/-- `UserProfile.update_personalization` (app/models/user.py lines
144-167): bulk update of the personalization document.  `updates` is a
Python mapping whose values may be `None` (`Option.none`); iteration
follows the mapping's order.  An empty mapping is a no-op (the early
`return` is the fold over `[]`). -/
def update_personalization (doc : Doc) (updates : List (String × Option PValue)) : Doc :=
  updates.foldl (fun data kv => applyUpdate data kv.1 kv.2) doc

/-- `UserProfile._set_list_field` (app/models/user.py lines 179-185): the
direct list-field setter.  `None` stores the empty list (it calls
`_set_personalization_value(key, [])`, and `[]` is not `None`, so the key
is set, not popped); a list/tuple/set is stored as a list; a bare scalar
is wrapped as a singleton list. -/
def set_list_field (doc : Doc) (k : String) (v : Option PValue) : Doc :=
  match v with
  | none => setKey doc k (.vList [])
  | some (.vList xs) => setKey doc k (.vList xs)
  | some w => setKey doc k (.vList [w])

/-- A stored template item: one JSON object of a category's `templates`
array.  `display_order` and `is_active` are optional dict keys read with
`t.get("display_order", 0)` / `t.get("is_active", True)`, so they are
`Option`s here; `code` and `label` are always present in stored data. -/
structure StoredTemplate where
  code : String
  label : String := ""
  emoji : Option String := none
  description : Option String := none
  display_order : Option Int := none
  is_active : Option Bool := none
deriving Repr, DecidableEq

/-- `t.get("is_active", True)`. -/
def StoredTemplate.activeD (t : StoredTemplate) : Bool := t.is_active.getD true

/-- `t.get("display_order", 0)`. -/
def StoredTemplate.orderD (t : StoredTemplate) : Int := t.display_order.getD 0

/-- `PersonalizationTemplate` (app/models/personalization_templates.py):
one row per category.  The `fields` JSONB column is opaque pass-through
data for the claims under verification and is modelled as raw key/value
dicts.  `id` (a random UUID) plays no role in any claim and is omitted;
`category` is a unique column. -/
structure PersonalizationTemplate where
  category : String
  view_order : Int := 0
  screen_key : Option String := none
  screen_title : Option String := none
  screen_subtitle : Option String := none
  screen_type : Option String := none
  screen_icon : Option String := none
  templates : List StoredTemplate := []
  fields : List (List (String × String)) := []
  version : Nat := 1
  created_at : Nat := 0
  updated_at : Option Nat := none
deriving Repr, DecidableEq

/-- The `personalization_templates` table. -/
abbrev Store := List PersonalizationTemplate

/-- `session.exec(select(PersonalizationTemplate).where(category == c)).first()`. -/
def findCategory (store : Store) (category : String) : Option PersonalizationTemplate :=
  store.find? (fun r => r.category == category)

/-- `get_default_templates()` (app/utils/personalization_defaults.py lines
102-171): the built-in default template dict, category by category. -/
def get_default_templates : List (String × List StoredTemplate) :=
  [ ("basic", []),
    ("lifestyle", []),
    ("goals",
      [ { code := "reduce_stress", label := "Reduce stress", emoji := some "🌿",
          display_order := some 1, is_active := some true },
        { code := "sleep_better", label := "Sleep better", emoji := some "😴",
          display_order := some 2, is_active := some true },
        { code := "improve_focus", label := "Improve focus", emoji := some "🎯",
          display_order := some 3, is_active := some true },
        { code := "manage_emotions", label := "Manage emotions", emoji := some "💞",
          display_order := some 4, is_active := some true } ]),
    ("challenges",
      [ { code := "overthinking", label := "Overthinking", emoji := some "🤯",
          display_order := some 1, is_active := some true },
        { code := "burnout", label := "Burnout", emoji := some "🔥",
          display_order := some 2, is_active := some true },
        { code := "fatigue", label := "Fatigue", emoji := some "🥱",
          display_order := some 3, is_active := some true },
        { code := "insomnia", label := "Insomnia", emoji := some "🌙",
          display_order := some 4, is_active := some true },
        { code := "low_motivation", label := "Low motivation", emoji := some "🪫",
          display_order := some 5, is_active := some true },
        { code := "loneliness", label := "Loneliness", emoji := some "🫥",
          display_order := some 6, is_active := some true },
        { code := "relationship_stress", label := "Relationship stress", emoji := some "💔",
          display_order := some 7, is_active := some true },
        { code := "anxiety", label := "Anxiety", emoji := some "😟",
          display_order := some 8, is_active := some true } ]),
    ("practices",
      [ { code := "breathing", label := "Breathing", emoji := some "🫁",
          display_order := some 1, is_active := some true },
        { code := "guided_meditation", label := "Guided meditation", emoji := some "🧘",
          display_order := some 2, is_active := some true },
        { code := "soundscape", label := "Soundscape", emoji := some "🌧️",
          display_order := some 3, is_active := some true },
        { code := "short_reflections", label := "Short reflections", emoji := some "📝",
          display_order := some 4, is_active := some true },
        { code := "mindful_journaling", label := "Mindful journaling", emoji := some "📓",
          display_order := some 5, is_active := some true } ]),
    ("practice_times",
      [ { code := "morning", label := "Morning", emoji := some "🌅",
          display_order := some 1, is_active := some true },
        { code := "afternoon", label := "Afternoon", emoji := some "🌤️",
          display_order := some 2, is_active := some true },
        { code := "night", label := "Night", emoji := some "🌃",
          display_order := some 3, is_active := some true } ]),
    ("mood_tendencies",
      [ { code := "calm", label := "Calm", emoji := some "😌",
          display_order := some 1, is_active := some true },
        { code := "stressed", label := "Stressed", emoji := some "😣",
          display_order := some 2, is_active := some true },
        { code := "sad", label := "Sad", emoji := some "😞",
          display_order := some 3, is_active := some true },
        { code := "happy", label := "Happy", emoji := some "😊",
          display_order := some 4, is_active := some true } ]),
    ("experience_levels",
      [ { code := "beginner", label := "Beginner", emoji := some "🌱",
          display_order := some 1, is_active := some true },
        { code := "intermediate", label := "Intermediate", emoji := some "🌿",
          display_order := some 2, is_active := some true },
        { code := "advanced", label := "Advanced", emoji := some "🌳",
          display_order := some 3, is_active := some true } ]),
    ("interests",
      [ { code := "mindfulness", label := "Mindfulness", emoji := some "🧠",
          display_order := some 1, is_active := some true },
        { code := "sleep_science", label := "Sleep science", emoji := some "🛌",
          display_order := some 2, is_active := some true },
        { code := "productivity", label := "Productivity", emoji := some "⚡",
          display_order := some 3, is_active := some true },
        { code := "relationships", label := "Relationships", emoji := some "💞",
          display_order := some 4, is_active := some true },
        { code := "self_compassion", label := "Self-compassion", emoji := some "💗",
          display_order := some 5, is_active := some true } ]),
    ("reminders",
      [ { code := "morning", label := "Morning check-in", emoji := some "🌞",
          display_order := some 1, is_active := some true },
        { code := "midday", label := "Midday break", emoji := some "🌤️",
          display_order := some 2, is_active := some true },
        { code := "evening", label := "Evening reflection", emoji := some "🌙",
          display_order := some 3, is_active := some true } ]),
    ("consent", []) ]

/-- `defaults.get(category, [])`. -/
def defaultTemplatesFor (category : String) : List StoredTemplate :=
  (get_default_templates.lookup category).getD []

/-- `get_template_codes_for_category` (app/utils/profile_validator.py
lines 10-33): the active template codes for a category, from the stored
record when one exists, otherwise falling back to the built-in defaults.
Python builds a `set`; only membership in it is ever used downstream, so
it is modelled as the code list (possible duplicates are irrelevant to
membership). -/
def get_template_codes_for_category (store : Store) (category : String) : List String :=
  match findCategory store category with
  | some record => (record.templates.filter (fun t => t.activeD)).map (fun t => t.code)
  | none => ((defaultTemplatesFor category).filter (fun t => t.activeD)).map (fun t => t.code)

/-- `validate_template_codes` (app/utils/profile_validator.py lines
36-54): partition candidate codes into (valid, invalid) by membership in
the category's active code set; an empty candidate list short-circuits. -/
def validate_template_codes (store : Store) (category : String) (codes : List String) :
    List String × List String :=
  if codes.isEmpty then ([], [])
  else
    let valid_codes_set := get_template_codes_for_category store category
    (codes.filter (fun c => valid_codes_set.contains c),
     codes.filter (fun c => !(valid_codes_set.contains c)))

/-- `valid_categories` as hard-coded in every admin templates route
(app/api/routes/admin_templates.py). -/
def valid_categories : List String :=
  ["goals", "challenges", "practices", "interests", "reminders"]

/-- Outcome of a route handler: a 400-class or 404-class
`HTTPException`. -/
inductive ApiError where
  | badRequest : String → ApiError
  | notFound : String → ApiError
deriving Repr, DecidableEq

/-- Pydantic `TemplateItem` request body (admin_templates.py lines
32-39): every field is materialised by `model_dump()`, with defaults
`display_order = 0` and `is_active = True`. -/
structure TemplateItemInput where
  code : String
  label : String
  emoji : Option String := none
  description : Option String := none
  display_order : Int := 0
  is_active : Bool := true
deriving Repr, DecidableEq

/-- `template_item.model_dump()`: the stored dict always carries explicit
`display_order` and `is_active` keys. -/
def TemplateItemInput.model_dump (i : TemplateItemInput) : StoredTemplate :=
  { code := i.code, label := i.label, emoji := i.emoji,
    description := i.description, display_order := some i.display_order,
    is_active := some i.is_active }

/-- Replace the first record of the given category (the ORM mutates the
fetched row in place; `category` is unique, so the first match is the
row). -/
def replaceFirst : Store → String → PersonalizationTemplate → Store
  | [], _, _ => []
  | x :: rest, category, r =>
      if x.category == category then r :: rest else x :: replaceFirst rest category r

/-- `get_category_templates` (admin_templates.py lines 47-73): admin read
of a category incl. inactive items; a missing record reads as version 0
with no templates.  Reads never touch the store. -/
def get_category_templates (store : Store) (category : String) :
    Except ApiError (String × List StoredTemplate × Nat) × Store :=
  if !(valid_categories.contains category) then
    (.error (.badRequest "Invalid category"), store)
  else
    match findCategory store category with
    | none => (.ok (category, [], 0), store)
    | some r => (.ok (category, r.templates, r.version), store)

/-- `update_category_templates` (admin_templates.py lines 76-119):
wholesale replace of a category's templates list; bumps `version` and
stamps `updated_at` on an existing record, or creates a fresh record at
version 1. -/
def update_category_templates (store : Store) (category : String)
    (templates_list : List StoredTemplate) (now : Nat) : Except ApiError Unit × Store :=
  if !(valid_categories.contains category) then
    (.error (.badRequest "Invalid category"), store)
  else
    match findCategory store category with
    | some r =>
        (.ok (), replaceFirst store category
          { r with templates := templates_list, updated_at := some now,
                   version := r.version + 1 })
    | none =>
        (.ok (), store ++ [{ category := category, templates := templates_list,
                             version := 1, created_at := now }])

/-- `add_template_to_category` (admin_templates.py lines 122-172): append
one item; a missing category record is created at version 1 holding just
the new item; a duplicate code (active or inactive) is a 400-class
conflict raised before any mutation. -/
def add_template_to_category (store : Store) (category : String)
    (template_item : TemplateItemInput) (now : Nat) : Except ApiError Unit × Store :=
  if !(valid_categories.contains category) then
    (.error (.badRequest "Invalid category"), store)
  else
    match findCategory store category with
    | none =>
        (.ok (), store ++ [{ category := category,
                             templates := [template_item.model_dump],
                             version := 1, created_at := now }])
    | some r =>
        if (r.templates.map (fun t => t.code)).contains template_item.code then
          (.error (.badRequest "Template code already exists in category"), store)
        else
          (.ok (), replaceFirst store category
            { r with templates := r.templates ++ [template_item.model_dump],
                     updated_at := some now, version := r.version + 1 })

/-- The deactivation loop of `delete_template_from_category`
(admin_templates.py lines 202-208): flip `is_active` to `False` on the
first item with the given code, then `break`. -/
def deactivateFirst : List StoredTemplate → String → List StoredTemplate
  | [], _ => []
  | t :: rest, c =>
      if t.code == c then { t with is_active := some false } :: rest
      else t :: deactivateFirst rest c

/-- `delete_template_from_category` (admin_templates.py lines 175-222):
deactivate (never remove) an item; 404-class failure when the category or
the code is absent; bumps `version` and stamps `updated_at` on success. -/
def delete_template_from_category (store : Store) (category : String)
    (template_code : String) (now : Nat) : Except ApiError Unit × Store :=
  if !(valid_categories.contains category) then
    (.error (.badRequest "Invalid category"), store)
  else
    match findCategory store category with
    | none => (.error (.notFound "Category not found"), store)
    | some r =>
        if r.templates.any (fun t => t.code == template_code) then
          (.ok (), replaceFirst store category
            { r with templates := deactivateFirst r.templates template_code,
                     updated_at := some now, version := r.version + 1 })
        else (.error (.notFound "Template code not found in category"), store)

/-- `get_active_templates_for_category` (app/utils/template_seeder.py
lines 84-123): active items of a stored category, sorted ascending by
`display_order` with Python's stable `list.sort`; an absent record gives
`[]` (no fallback to defaults here). -/
def get_active_templates_for_category (store : Store) (category : String) :
    List StoredTemplate :=
  match findCategory store category with
  | none => []
  | some record =>
      (record.templates.filter (fun t => t.activeD)).mergeSort
        (fun a b => a.orderD ≤ b.orderD)

/-- `TemplateItemResponse` (app/schemas/template.py) as built by the
onboarding view: defaults applied for missing `display_order` /
`is_active`. -/
structure TemplateItemResponse where
  code : String
  label : String
  emoji : Option String := none
  description : Option String := none
  display_order : Int := 0
  is_active : Bool := true
deriving Repr, DecidableEq

/-- One entry of the `TemplateItemResponse` construction in
`get_onboarding_templates_view` (templates.py lines 188-196). -/
def toItemResponse (t : StoredTemplate) : TemplateItemResponse :=
  { code := t.code, label := t.label, emoji := t.emoji,
    description := t.description, display_order := t.orderD,
    is_active := t.activeD }

/-- `PersonalizationTemplateViewResponse` for one onboarding screen
(templates.py lines 237-251).  Field-definition normalization (lines
204-235) is pass-through display data outside every claim under
verification and is not carried. -/
structure ScreenView where
  category : String
  view_order : Int
  screen_key : Option String := none
  screen_title : Option String := none
  screen_subtitle : Option String := none
  screen_type : Option String := none
  screen_icon : Option String := none
  templates : List TemplateItemResponse := []
  version : Nat := 1
  created_at : Nat := 0
  updated_at : Option Nat := none
deriving Repr, DecidableEq

/-- `get_onboarding_templates_view` (app/api/routes/templates.py lines
158-263): all records with `view_order > 0`, ordered ascending by
`view_order` (the `ORDER BY`, modelled as a stable sort of the stored
order), each carrying its active items sorted ascending by
`display_order`. -/
def get_onboarding_templates_view (store : Store) : List ScreenView :=
  let records := (store.filter (fun r => 0 < r.view_order)).mergeSort
    (fun a b => a.view_order ≤ b.view_order)
  records.map (fun r =>
    { category := r.category, view_order := r.view_order,
      screen_key := r.screen_key, screen_title := r.screen_title,
      screen_subtitle := r.screen_subtitle, screen_type := r.screen_type,
      screen_icon := r.screen_icon,
      templates := ((r.templates.filter (fun t => t.activeD)).map toItemResponse).mergeSort
        (fun a b => a.display_order ≤ b.display_order),
      version := r.version, created_at := r.created_at,
      updated_at := r.updated_at })

/-- `UserProfile` row (app/models/user.py lines 96-120), restricted to
the columns the onboarding status computation reads. -/
structure UserProfile where
  personalization_data : Doc := []
  onboarding_screen : Option String := none
  onboarding_started_at : Option Nat := none
  personalized_at : Option Nat := none

/-- `UserProfile._get_string_field` (user.py model lines 187-192): a
stored string is trimmed, with blank-after-trim reading as `None`;
non-string values read as `None`. -/
def get_string_field (p : UserProfile) (k : String) : Option String :=
  match lookupDoc p.personalization_data k with
  | some (.vStr s) =>
      let cleaned := s.trim
      if cleaned == "" then none else some cleaned
  | _ => none

/-- `UserProfile._get_list_field` (user.py model lines 169-177): absent
reads as `[]` (the `data.get(key, [])` default), a stored list is
returned as-is, and a stored scalar is wrapped as a singleton. -/
def get_list_field (p : UserProfile) (k : String) : List PValue :=
  match lookupDoc p.personalization_data k with
  | none => []
  | some (.vList xs) => xs
  | some v => [v]

/-- `ONBOARDING_SCREENS` (app/api/routes/user.py line 616). -/
def ONBOARDING_SCREENS : List String := ["welcome", "breathe", "personalize"]

/-- Lines 635-638: the legacy `"sleep"` marker normalizes to
`"completed"` on read. -/
def normalizeStoredScreen (s : Option String) : Option String :=
  if s == some "sleep" then some "completed" else s

/-- Lines 641-649: completed screens derived from the stored marker — the
full sequence for `"completed"`, the prefix before the marker when it is
a known screen (`list.index` + slice), and `[]` otherwise (the
`ValueError` branch). -/
def completedFromStored (stored : Option String) : List String :=
  match stored with
  | none => []
  | some s =>
      if s == "completed" then ONBOARDING_SCREENS
      else
        match ONBOARDING_SCREENS.findIdx? (fun x => x == s) with
        | some i => ONBOARDING_SCREENS.take i
        | none => []

/-- Lines 663-670: whether any of the six screen-advancing
personalization values is populated. -/
def hasPersonalizationData (p : UserProfile) : Bool :=
  !(get_list_field p "goals").isEmpty ||
  !(get_list_field p "challenges").isEmpty ||
  !(get_list_field p "practice_preferences").isEmpty ||
  !(get_list_field p "interests").isEmpty ||
  (get_string_field p "age_range").isSome ||
  (get_string_field p "gender").isSome

/-- Lines 640-678: the completed-screens list after the four conditional
appends (welcome whenever a profile exists; breathe when a name is set;
personalize when personalization data exists or `personalized_at` is
set). -/
def completedScreensOf (p : UserProfile) : List String :=
  let stored := normalizeStoredScreen p.onboarding_screen
  let c1 := completedFromStored stored
  let c2 := if c1.contains "welcome" then c1 else c1 ++ ["welcome"]
  let c3 := if (get_string_field p "name").isSome && !(c2.contains "breathe")
            then c2 ++ ["breathe"] else c2
  let c4 := if hasPersonalizationData p && !(c3.contains "personalize")
            then c3 ++ ["personalize"] else c3
  if p.personalized_at.isSome && !(c4.contains "personalize")
  then c4 ++ ["personalize"] else c4

/-- Python truthiness of the optional stored screen string. -/
def strOptTruthy : Option String → Bool
  | none => false
  | some s => !(s == "")

/-- Lines 680-689: the current screen — the stored marker when truthy,
otherwise inferred.  At this point of the handler `missing_fields` is
still the empty list it was initialised to (it is only populated later,
lines 716-719), so the `len(missing_fields) == 0` conjunct is always
true here and the inference reads: completed when `personalized_at` is
set, else personalize when data exists, else breathe (a profile
exists). -/
def currentScreenOf (p : UserProfile) : Option String :=
  let stored := normalizeStoredScreen p.onboarding_screen
  if strOptTruthy stored then stored
  else some (if p.personalized_at.isSome then "completed"
             else if hasPersonalizationData p then "personalize"
             else "breathe")

/-- Lines 691-702: the screen after `current_screen` in the fixed
sequence; `None`/`"completed"` have no successor; a marker not in the
sequence (the `ValueError` branch) falls back to `"personalize"`. -/
def nextScreenOf (current : Option String) : Option String :=
  if current == none || current == some "completed" then none
  else
    match current with
    | none => none
    | some s =>
        match ONBOARDING_SCREENS.findIdx? (fun x => x == s) with
        | some i =>
            if i < ONBOARDING_SCREENS.length - 1 then ONBOARDING_SCREENS.get? (i + 1)
            else none
        | none => some "personalize"

/-- Lines 710-719: the required fields, in dict insertion order, whose
list value is empty. -/
def missingFieldsOf (p : UserProfile) : List String :=
  (["goals", "challenges", "practice_preferences"]).filter
    (fun f => (get_list_field p f).isEmpty)

/-- Lines 729-739: how many of the six optional fields are populated. -/
def filledOptionalCount (p : UserProfile) : Nat :=
  ((([!(get_list_field p "interests").isEmpty,
      !(get_list_field p "reminder_times").isEmpty,
      (get_string_field p "age_range").isSome,
      (get_string_field p "gender").isSome,
      (get_string_field p "experience_level").isSome,
      (get_string_field p "mood_tendency").isSome]).filter (fun b => b)).length)

/-- Lines 704-743: the completion percentage.  Python computes in IEEE
floats; every quantity here is a small rational with denominator 3 or 6
scaled by 20/40/60, all exactly representable, so ℚ models the float
arithmetic faithfully on this domain, and `int()` truncation on these
non-negative values is `Int.floor`. -/
def completionPct (p : UserProfile) : Int :=
  let completed := completedScreensOf p
  let distinct := ((completed.dedup).filter (fun s => ONBOARDING_SCREENS.contains s)).length
  let screens_completion : ℚ := (distinct : ℚ) / (ONBOARDING_SCREENS.length : ℚ) * 40
  let missing := missingFieldsOf p
  let fields_completion : ℚ := (((3 : ℚ) - (missing.length : ℚ)) / 3) * 60
  let pct1 : Int := ⌊screens_completion + fields_completion⌋
  let filled := filledOptionalCount p
  let optional_completion : ℚ :=
    min ((filled : ℚ) / 6 * 20) ((100 : ℚ) - (pct1 : ℚ))
  min ⌊(pct1 : ℚ) + optional_completion⌋ 100

/-- `OnboardingStatusResponse` as returned by the status route. -/
structure OnboardingStatusResponse where
  is_completed : Bool
  has_profile : Bool
  personalized_at : Option Nat := none
  completion_percentage : Int
  missing_fields : List String
  current_screen : Option String
  next_screen : Option String
  completed_screens : List String
  onboarding_started_at : Option Nat := none
deriving Repr, DecidableEq

/-- `get_onboarding_status` (app/api/routes/user.py lines 578-776): the
derived onboarding progress of a user, from their profile row or its
absence. -/
def get_onboarding_status : Option UserProfile → OnboardingStatusResponse
  | none =>
      { is_completed := false, has_profile := false, personalized_at := none,
        completion_percentage := 0, missing_fields := ["profile"],
        current_screen := some "welcome", next_screen := some "breathe",
        completed_screens := [], onboarding_started_at := none }
  | some p =>
      let completed := completedScreensOf p
      let current := currentScreenOf p
      let next := nextScreenOf current
      let missing := missingFieldsOf p
      let pct := completionPct p
      let isCompleted := p.personalized_at.isSome && missing.isEmpty &&
        completed.contains "personalize"
      let currentF := if isCompleted then none else current
      let nextF := if isCompleted then none else next
      let completedF := if isCompleted then ONBOARDING_SCREENS else completed
      let ordered := ONBOARDING_SCREENS.filter (fun s => completedF.contains s)
      { is_completed := isCompleted, has_profile := true,
        personalized_at := p.personalized_at, completion_percentage := pct,
        missing_fields := missing, current_screen := currentF,
        next_screen := nextF, completed_screens := ordered,
        onboarding_started_at := p.onboarding_started_at }

theorem lookupDoc_setKey_self (d : Doc) (k : String) (v : PValue) :
    lookupDoc (setKey d k v) k = some v := by
  induction d with
  | nil => simp [setKey, lookupDoc]
  | cons p rest ih =>
      by_cases h : p.1 == k
      · simp [setKey, h, lookupDoc]
      · simp [setKey, h, lookupDoc, ih]

theorem lookupDoc_setKey_ne (d : Doc) (k k' : String) (v : PValue)
    (h : k ≠ k') : lookupDoc (setKey d k v) k' = lookupDoc d k' := by
  induction d with
  | nil => simp [setKey, lookupDoc, h]
  | cons p rest ih =>
      by_cases hp : p.1 == k
      · have hpk : p.1 = k := by simpa using hp
        simp [setKey, hp, lookupDoc, hpk, h]
      · simp [setKey, hp, lookupDoc, ih]

theorem lookupDoc_popKey_self (d : Doc) (k : String) :
    lookupDoc (popKey d k) k = none := by
  induction d with
  | nil => simp [popKey, lookupDoc]
  | cons p rest ih =>
      by_cases hp : p.1 == k
      · simpa [popKey, hp] using ih
      · simp only [popKey, List.filter] at ih ⊢
        simp [hp, lookupDoc, ih]

theorem lookupDoc_popKey_ne (d : Doc) (k k' : String) (h : k ≠ k') :
    lookupDoc (popKey d k) k' = lookupDoc d k' := by
  induction d with
  | nil => simp [popKey, lookupDoc]
  | cons p rest ih =>
      by_cases hp : p.1 == k
      · have hpk : p.1 = k := by simpa using hp
        simp only [popKey, List.filter] at ih ⊢
        simp [hp, lookupDoc, hpk, h, ih]
      · simp only [popKey, List.filter] at ih ⊢
        simp [hp, lookupDoc, ih]

/-- One step of `update_personalization` never touches a key other than
the one being written. -/
theorem lookupDoc_applyUpdate_ne (data : Doc) (k₀ : String) (v₀ : Option PValue)
    (k : String) (h : k₀ ≠ k) :
    lookupDoc (applyUpdate data k₀ v₀) k = lookupDoc data k := by
  have hpop := lookupDoc_popKey_ne data k₀ k h
  have hset := fun v => lookupDoc_setKey_ne data k₀ k v h
  unfold applyUpdate
  cases hl : LIST_FIELDS.contains k₀ <;> cases hb : BOOL_FIELDS.contains k₀ <;>
    rcases v₀ with _ | (s | b | n | xs) <;> simp [hl, hb, hpop, hset]

theorem update_personalization_cons (doc : Doc) (kv : String × Option PValue)
    (rest : List (String × Option PValue)) :
    update_personalization doc (kv :: rest) =
      update_personalization (applyUpdate doc kv.1 kv.2) rest := by
  simp [update_personalization, List.foldl]

/-- C1, counterexample: with an empty catalog store the category "goals"
has no stored record, yet `validate_template_codes` accepts the default
code "reduce_stress" (the fallback to `get_default_templates()` at
profile_validator.py lines 29-33), so the result is not (∅, all). -/
theorem C1_counterexample :
    findCategory [] "goals" = none ∧
    validate_template_codes [] "goals" ["reduce_stress"] = (["reduce_stress"], []) ∧
    validate_template_codes [] "goals" ["reduce_stress"] ≠ ([], ["reduce_stress"]) := by
  refine ⟨rfl, by decide, by decide⟩

/-- C1, amended: when the queried category has no stored catalog record,
`validate_codes` partitions the candidates against the *built-in default*
active codes for that category (no exception is raised); in particular,
when the category is also absent from the defaults, every candidate is
invalid (empty `valid_codes`, full `invalid_codes`). -/
theorem C1_amended (store : Store) (category : String) (codes : List String)
    (h : findCategory store category = none) :
    validate_template_codes store category codes =
      (codes.filter (fun c =>
        (((defaultTemplatesFor category).filter (fun t => t.activeD)).map
          (fun t => t.code)).contains c),
       codes.filter (fun c =>
        !((((defaultTemplatesFor category).filter (fun t => t.activeD)).map
          (fun t => t.code)).contains c))) ∧
    (get_default_templates.lookup category = none →
      validate_template_codes store category codes = ([], codes)) := by
  have hcodes : get_template_codes_for_category store category =
      ((defaultTemplatesFor category).filter (fun t => t.activeD)).map (fun t => t.code) := by
    unfold get_template_codes_for_category
    rw [h]
  constructor
  · unfold validate_template_codes
    cases codes with
    | nil => simp
    | cons c cs => simp [hcodes]
  · intro hd
    have hdef : defaultTemplatesFor category = [] := by
      unfold defaultTemplatesFor
      rw [hd]
      rfl
    unfold validate_template_codes
    cases codes with
    | nil => simp
    | cons c cs =>
        simp [hcodes, hdef, List.filter_eq_self]

/-- Witness for `C1_amended` at an empty store: "goals" validates against
the default codes; an unknown category invalidates everything. -/
theorem C1_amended_witness :
    validate_template_codes [] "goals" ["reduce_stress", "x"] = (["reduce_stress"], ["x"]) ∧
    validate_template_codes [] "zzz" ["x"] = ([], ["x"]) := by
  constructor
  · rw [(C1_amended [] "goals" ["reduce_stress", "x"] rfl).1]
    decide
  · exact (C1_amended [] "zzz" ["x"] rfl).2 (by decide)

/-- C2, counterexample: `update_personalization` on a reserved list field
with value `None` pops the key (app/models/user.py lines 151-152), so the
resulting document does not bind "goals" to `[]` — the key is gone. -/
theorem C2_counterexample :
    update_personalization [("goals", PValue.vList [PValue.vStr "a"])] [("goals", none)] = [] ∧
    lookupDoc (update_personalization [("goals", PValue.vList [PValue.vStr "a"])]
      [("goals", none)]) "goals" ≠ some (PValue.vList []) := by
  refine ⟨rfl, ?_⟩
  intro hc
  have hnone : lookupDoc (update_personalization
      [("goals", PValue.vList [PValue.vStr "a"])] [("goals", none)]) "goals" = none := rfl
  rw [hnone] at hc
  exact Option.some_ne_none _ hc.symm

/-- C2, amended: for every reserved list-field key `k`, the profile
engine's bulk update with `k ↦ None` *removes* `k` from the
personalization document (key absent afterwards); storing the empty list
on `None` is the behaviour of the direct `_set_list_field` setter, which
the bulk update does not share. -/
theorem C2_amended (doc : Doc) (k : String) (_h : LIST_FIELDS.contains k = true) :
    lookupDoc (update_personalization doc [(k, none)]) k = none ∧
    lookupDoc (set_list_field doc k none) k = some (PValue.vList []) := by
  constructor
  · have hstep : update_personalization doc [(k, none)] = popKey doc k := by
      unfold update_personalization applyUpdate
      simp only [List.foldl]
      split <;> rfl
    rw [hstep]
    exact lookupDoc_popKey_self doc k
  · exact lookupDoc_setKey_self doc k _

/-- Witness for `C2_amended` on a document holding goals = ["a"]. -/
theorem C2_amended_witness :
    lookupDoc (update_personalization [("goals", PValue.vList [PValue.vStr "a"])]
      [("goals", none)]) "goals" = none ∧
    lookupDoc (set_list_field [("goals", PValue.vList [PValue.vStr "a"])] "goals" none)
      "goals" = some (PValue.vList []) :=
  C2_amended [("goals", PValue.vList [PValue.vStr "a"])] "goals" (by decide)

/-- C9: the bulk update changes only the keys occurring in the updates
mapping — every other key of the personalization document keeps exactly
its previous binding (present with the same value, or equally absent). -/
theorem C9_bulk_update_frame (doc : Doc) (updates : List (String × Option PValue))
    (k : String) (h : ∀ kv ∈ updates, kv.1 ≠ k) :
    lookupDoc (update_personalization doc updates) k = lookupDoc doc k := by
  induction updates generalizing doc with
  | nil => rfl
  | cons kv rest ih =>
      rw [update_personalization_cons]
      rw [ih _ (fun kv' h' => h kv' (List.mem_cons_of_mem _ h'))]
      exact lookupDoc_applyUpdate_ne doc kv.1 kv.2 k (h kv (List.mem_cons_self _ _))

/-- Witness for `C9_bulk_update_frame`: updating "goals" leaves "name"
bound to its old value. -/
theorem C9_bulk_update_frame_witness :
    lookupDoc (update_personalization [("name", PValue.vStr "Ada")]
      [("goals", some (PValue.vStr "x"))]) "name" =
      lookupDoc [("name", PValue.vStr "Ada")] "name" :=
  C9_bulk_update_frame [("name", PValue.vStr "Ada")]
    [("goals", some (PValue.vStr "x"))] "name"
    (by intro kv hkv; simp at hkv; subst hkv; decide)

/-- C4: the two lists returned by `validate_codes` partition the
candidates — their multiset union is the candidate list, each output is
a sublist of the candidates (hence preserves relative input order), and
every candidate lands in exactly one of the two outputs. -/
theorem C4_partition (store : Store) (category : String) (codes : List String) :
    ((validate_template_codes store category codes).1 ++
      (validate_template_codes store category codes).2).Perm codes ∧
    (validate_template_codes store category codes).1.Sublist codes ∧
    (validate_template_codes store category codes).2.Sublist codes ∧
    ∀ c ∈ codes, (c ∈ (validate_template_codes store category codes).1 ↔
      c ∉ (validate_template_codes store category codes).2) := by
  unfold validate_template_codes
  cases codes with
  | nil => simp
  | cons c0 cs =>
      rw [if_neg (by simp)]
      refine ⟨List.filter_append_perm _ _, List.filter_sublist _,
        List.filter_sublist _, ?_⟩
      intro c hc
      simp [List.mem_filter, hc]

/-- Witness for `C4_partition` at an empty store and the "goals"
category: ["reduce_stress", "x"] splits, and "x" is in exactly one
side. -/
theorem C4_partition_witness :
    ((validate_template_codes [] "goals" ["reduce_stress", "x"]).1 ++
      (validate_template_codes [] "goals" ["reduce_stress", "x"]).2).Perm
      ["reduce_stress", "x"] ∧
    ("x" ∈ (validate_template_codes [] "goals" ["reduce_stress", "x"]).1 ↔
      "x" ∉ (validate_template_codes [] "goals" ["reduce_stress", "x"]).2) :=
  ⟨(C4_partition [] "goals" ["reduce_stress", "x"]).1,
   (C4_partition [] "goals" ["reduce_stress", "x"]).2.2.2 "x" (by decide)⟩

/-- C5: adding an item whose code already exists in the category (active
or inactive) fails with the 400-class duplicate-code error, raised before
any mutation: the store — and so the category's version, timestamps and
templates list — is exactly as before the call. -/
theorem C5_duplicate_add (store : Store) (category : String)
    (r : PersonalizationTemplate) (item : TemplateItemInput) (now : Nat)
    (hvalid : valid_categories.contains category = true)
    (hfind : findCategory store category = some r)
    (hdup : (r.templates.map (fun t => t.code)).contains item.code = true) :
    (add_template_to_category store category item now).1 =
      .error (.badRequest "Template code already exists in category") ∧
    (add_template_to_category store category item now).2 = store ∧
    findCategory (add_template_to_category store category item now).2 category = some r := by
  have hvalid' : category ∈ valid_categories := by simpa using hvalid
  have hdup' : ∃ a ∈ r.templates, a.code = item.code := by simpa using hdup
  unfold add_template_to_category
  refine ⟨?_, ?_, ?_⟩ <;> simp [hvalid', hfind, hdup']

/-- Witness for `C5_duplicate_add`: re-adding code "a" (stored inactive)
errors and leaves the record at version 3. -/
theorem C5_duplicate_add_witness :
    (add_template_to_category
      [{ category := "goals",
         templates := [{ code := "a", label := "A", is_active := some false }],
         version := 3, created_at := 0 }]
      "goals" { code := "a", label := "dup" } 9).1 =
      .error (.badRequest "Template code already exists in category") ∧
    (add_template_to_category
      [{ category := "goals",
         templates := [{ code := "a", label := "A", is_active := some false }],
         version := 3, created_at := 0 }]
      "goals" { code := "a", label := "dup" } 9).2 =
      [{ category := "goals",
         templates := [{ code := "a", label := "A", is_active := some false }],
         version := 3, created_at := 0 }] :=
  ⟨(C5_duplicate_add
      [{ category := "goals",
         templates := [{ code := "a", label := "A", is_active := some false }],
         version := 3, created_at := 0 }]
      "goals"
      { category := "goals",
        templates := [{ code := "a", label := "A", is_active := some false }],
        version := 3, created_at := 0 }
      { code := "a", label := "dup" } 9 (by decide) rfl (by decide)).1,
   (C5_duplicate_add
      [{ category := "goals",
         templates := [{ code := "a", label := "A", is_active := some false }],
         version := 3, created_at := 0 }]
      "goals"
      { category := "goals",
        templates := [{ code := "a", label := "A", is_active := some false }],
        version := 3, created_at := 0 }
      { code := "a", label := "dup" } 9 (by decide) rfl (by decide)).2.1⟩

/-- C10: adding an item under a valid category name that has no stored
record does not 404 — a fresh record is created at version 1 whose
templates list holds exactly the added item. -/
theorem C10_add_creates (store : Store) (category : String)
    (item : TemplateItemInput) (now : Nat)
    (hvalid : valid_categories.contains category = true)
    (hfind : findCategory store category = none) :
    (add_template_to_category store category item now).1 = .ok () ∧
    (add_template_to_category store category item now).2 =
      store ++ [{ category := category, templates := [item.model_dump],
                  version := 1, created_at := now }] ∧
    findCategory (add_template_to_category store category item now).2 category =
      some { category := category, templates := [item.model_dump],
             version := 1, created_at := now } := by
  have hvalid' : category ∈ valid_categories := by simpa using hvalid
  have heq : add_template_to_category store category item now =
      (.ok (), store ++ [{ category := category, templates := [item.model_dump],
                           version := 1, created_at := now }]) := by
    unfold add_template_to_category
    rw [hfind]
    simp [hvalid']
  refine ⟨by rw [heq], by rw [heq], ?_⟩
  rw [heq]
  unfold findCategory at hfind ⊢
  rw [List.find?_append, hfind]
  simp

/-- Witness for `C10_add_creates`: adding "z" to "goals" in an empty
store creates the version-1 record. -/
theorem C10_add_creates_witness :
    (add_template_to_category [] "goals" { code := "z", label := "Z" } 7).1 = .ok () ∧
    findCategory (add_template_to_category [] "goals" { code := "z", label := "Z" } 7).2
      "goals" =
      some { category := "goals",
             templates := [TemplateItemInput.model_dump { code := "z", label := "Z" }],
             version := 1, created_at := 7 } :=
  ⟨(C10_add_creates [] "goals" { code := "z", label := "Z" } 7 (by decide) rfl).1,
   (C10_add_creates [] "goals" { code := "z", label := "Z" } 7 (by decide) rfl).2.2⟩

theorem findCategory_replaceFirst (store : Store) (category : String)
    (r' : PersonalizationTemplate) (hcat : r'.category = category) :
    ∀ r, findCategory store category = some r →
      findCategory (replaceFirst store category r') category = some r' := by
  induction store with
  | nil => intro r hr; simp [findCategory] at hr
  | cons x rest ih =>
      intro r hr
      by_cases hx : (x.category == category) = true
      · simp only [replaceFirst, hx, if_true]
        have hr' : (r'.category == category) = true := by simp [hcat]
        unfold findCategory
        rw [List.find?_cons_of_pos rest hr']
      · rw [Bool.not_eq_true] at hx
        simp only [replaceFirst, hx, Bool.false_eq_true, if_false]
        unfold findCategory at hr ⊢
        rw [List.find?_cons_of_neg _ (by simp [hx])] at hr
        rw [List.find?_cons_of_neg _ (by simp [hx])]
        exact ih r hr

theorem key_le_trans {α : Type} (key : α → Int) : ∀ a b c : α,
    (fun a b => decide (key a ≤ key b)) a b = true →
    (fun a b => decide (key a ≤ key b)) b c = true →
    (fun a b => decide (key a ≤ key b)) a c = true := by
  intro a b c hab hbc
  simp only [decide_eq_true_eq] at *
  exact le_trans hab hbc

theorem key_le_total {α : Type} (key : α → Int) : ∀ a b : α,
    ((fun a b => decide (key a ≤ key b)) a b ||
     (fun a b => decide (key a ≤ key b)) b a) = true := by
  intro a b
  simp only [Bool.or_eq_true, decide_eq_true_eq]
  exact le_total (key a) (key b)

/-- A stable ascending sort by an integer key is pairwise-sorted on the
key. -/
theorem mergeSort_key_pairwise {α : Type} (key : α → Int) (l : List α) :
    List.Pairwise (fun a b => key a ≤ key b)
      (l.mergeSort (fun a b => key a ≤ key b)) := by
  have h := List.sorted_mergeSort (key_le_trans key) (key_le_total key) l
  exact h.imp (by intro a b hab; simpa using hab)

/-- Stability of `mergeSort` under an integer key: the elements of any
fixed key value come out in exactly their input order (Python's
`list.sort` tie-breaking). -/
theorem mergeSort_filter_key {α : Type} (key : α → Int) (l : List α) (k : Int) :
    (l.mergeSort (fun a b => key a ≤ key b)).filter (fun a => key a == k) =
      l.filter (fun a => key a == k) := by
  induction l with
  | nil => simp
  | cons a l ih =>
      obtain ⟨l₁, l₂, h1, h2, h3⟩ :=
        List.mergeSort_cons (key_le_trans key) (key_le_total key) a l
      rw [h1, List.filter_append]
      cases hk : (key a == k) with
      | true =>
          have hak : key a = k := by simpa using hk
          have hl₁ : l₁.filter (fun x => key x == k) = [] := by
            rw [List.filter_eq_nil_iff]
            intro b hb
            have hb' := h3 b hb
            simp only [Bool.not_eq_true', decide_eq_false_iff_not] at hb'
            have hlt : key b < key a := lt_of_not_le hb'
            have hne : key b ≠ k := by rw [← hak]; exact ne_of_lt hlt
            simpa using hne
          have hfl : l₂.filter (fun x => key x == k) = l.filter (fun x => key x == k) := by
            have ih' := ih
            rw [h2, List.filter_append, hl₁] at ih'
            simpa using ih'
          simp [List.filter_cons, hk, hl₁, hfl]
      | false =>
          have hfl : l₁.filter (fun x => key x == k) ++ l₂.filter (fun x => key x == k) =
              l.filter (fun x => key x == k) := by
            rw [← List.filter_append, ← h2]
            exact ih
          simp [List.filter_cons, hk, hfl]

/-- C3: the active-template listing drops inactive items and is stably
sorted ascending by `display_order`; the onboarding screen assembly
emits exactly the categories with `view_order > 0`, ascending by
`view_order`; and on the spec's concrete scenario {a: active order 2,
b: inactive order 1, c: active order 1} the listing is [c, a]. -/
theorem C3_ordering :
    (∀ (store : Store) (cat : String) (r : PersonalizationTemplate),
      findCategory store cat = some r →
      (get_active_templates_for_category store cat).Perm
        (r.templates.filter (fun t => t.activeD)) ∧
      (get_active_templates_for_category store cat).Pairwise
        (fun a b => a.orderD ≤ b.orderD) ∧
      (∀ k : Int, (get_active_templates_for_category store cat).filter
          (fun t => t.orderD == k) =
        (r.templates.filter (fun t => t.activeD)).filter (fun t => t.orderD == k))) ∧
    (∀ store : Store,
      (get_onboarding_templates_view store).Pairwise
        (fun a b => a.view_order ≤ b.view_order) ∧
      (∀ s ∈ get_onboarding_templates_view store, 0 < s.view_order) ∧
      ((get_onboarding_templates_view store).map (fun s => s.category)).Perm
        ((store.filter (fun r => 0 < r.view_order)).map (fun r => r.category))) ∧
    ((get_active_templates_for_category
        [{ category := "goals",
           templates := [
             { code := "a", label := "A", display_order := some 2, is_active := some true },
             { code := "b", label := "B", display_order := some 1, is_active := some false },
             { code := "c", label := "C", display_order := some 1, is_active := some true }],
           version := 1, created_at := 0 }] "goals").map (fun t => t.code) =
      ["c", "a"]) := by
  refine ⟨?_, ?_, by
    simp [get_active_templates_for_category, findCategory, List.find?,
      StoredTemplate.activeD, StoredTemplate.orderD, List.mergeSort]⟩
  · intro store cat r hfind
    unfold get_active_templates_for_category
    rw [hfind]
    exact ⟨List.mergeSort_perm _ _, mergeSort_key_pairwise StoredTemplate.orderD _,
      fun k => mergeSort_filter_key StoredTemplate.orderD _ k⟩
  · intro store
    unfold get_onboarding_templates_view
    refine ⟨?_, ?_, ?_⟩
    · apply List.Pairwise.map
      · intro a b hab
        exact hab
      · exact mergeSort_key_pairwise PersonalizationTemplate.view_order _
    · intro s hs
      obtain ⟨r, hr, hrs⟩ := List.mem_map.mp hs
      have hr' : r ∈ store.filter (fun r => 0 < r.view_order) :=
        (List.mergeSort_perm _ _).mem_iff.mp hr
      have hpos : 0 < r.view_order := by
        have := (List.mem_filter.mp hr').2
        simpa using this
      rw [← hrs]
      exact hpos
    · rw [List.map_map]
      exact ((List.mergeSort_perm _ _).map _)

/-- Witness for `C3_ordering` on a two-record store (view orders 3 and
1): the goals listing permutes its active set, the "a"-keyed slice of the
ordered output matches the stored slice, the screens come out
[basic, goals], and the basic screen is in the view with positive
order. -/
theorem C3_ordering_witness :
    ((get_active_templates_for_category
        [{ category := "goals",
           templates := [
             { code := "a", label := "A", display_order := some 2, is_active := some true },
             { code := "c", label := "C", display_order := some 1, is_active := some true }],
           version := 1, created_at := 0 }] "goals").Perm
      [{ code := "a", label := "A", display_order := some 2, is_active := some true },
       { code := "c", label := "C", display_order := some 1, is_active := some true }]) ∧
    (0 < ({ category := "basic", view_order := 1, templates := [],
            version := 1, created_at := 0 } : ScreenView).view_order) := by
  constructor
  · have h := (C3_ordering.1
      [{ category := "goals",
         templates := [
           { code := "a", label := "A", display_order := some 2, is_active := some true },
           { code := "c", label := "C", display_order := some 1, is_active := some true }],
         version := 1, created_at := 0 }] "goals"
      { category := "goals",
        templates := [
          { code := "a", label := "A", display_order := some 2, is_active := some true },
          { code := "c", label := "C", display_order := some 1, is_active := some true }],
        version := 1, created_at := 0 } rfl).1
    simpa [StoredTemplate.activeD] using h
  · exact (C3_ordering.2.1
      [{ category := "basic", view_order := 1, version := 1, created_at := 0 },
       { category := "goals", view_order := 3, version := 1, created_at := 0 }]).2.1
      { category := "basic", view_order := 1, templates := [],
        version := 1, created_at := 0 }
      (by simp [get_onboarding_templates_view, List.mergeSort, toItemResponse,
        StoredTemplate.activeD, StoredTemplate.orderD])

/-- C6: every successful mutation of an existing category — wholesale
template replace, item add, item deactivate — bumps `version` by exactly
one and stamps `updated_at` with the current clock (which, under a
monotone clock, is ≥ the previous stamp); the admin read returns the
store untouched. -/
theorem C6_version_monotonic (store : Store) (category : String)
    (r : PersonalizationTemplate) (now : Nat) (ts : List StoredTemplate)
    (item : TemplateItemInput) (tcode : String)
    (hvalid : valid_categories.contains category = true)
    (hfind : findCategory store category = some r)
    (hclock : ∀ t, r.updated_at = some t → t ≤ now) :
    ((update_category_templates store category ts now).1 = .ok () ∧
      findCategory (update_category_templates store category ts now).2 category =
        some { r with templates := ts, updated_at := some now,
                      version := r.version + 1 }) ∧
    ((r.templates.map (fun t => t.code)).contains item.code = false →
      (add_template_to_category store category item now).1 = .ok () ∧
      findCategory (add_template_to_category store category item now).2 category =
        some { r with templates := r.templates ++ [item.model_dump],
                      updated_at := some now, version := r.version + 1 }) ∧
    (r.templates.any (fun t => t.code == tcode) = true →
      (delete_template_from_category store category tcode now).1 = .ok () ∧
      findCategory (delete_template_from_category store category tcode now).2 category =
        some { r with templates := deactivateFirst r.templates tcode,
                      updated_at := some now, version := r.version + 1 }) ∧
    ((get_category_templates store category).2 = store) ∧
    (∀ t, r.updated_at = some t → t ≤ now) := by
  have hvalid' : category ∈ valid_categories := by simpa using hvalid
  have hrcat : r.category = category := by
    have := List.find?_some hfind
    simpa using this
  refine ⟨?_, ?_, ?_, ?_, hclock⟩
  case refine_4 =>
    unfold get_category_templates
    rw [hfind]
    simp [hvalid']
  · have heq : update_category_templates store category ts now =
        (.ok (), replaceFirst store category
          { r with templates := ts, updated_at := some now,
                   version := r.version + 1 }) := by
      unfold update_category_templates
      rw [hfind]
      simp [hvalid']
    rw [heq]
    exact ⟨rfl, findCategory_replaceFirst store category _ hrcat r hfind⟩
  · intro hnodup
    have hnodup' : ¬ ∃ a ∈ r.templates, a.code = item.code := by
      simpa using hnodup
    have heq : add_template_to_category store category item now =
        (.ok (), replaceFirst store category
          { r with templates := r.templates ++ [item.model_dump],
                   updated_at := some now, version := r.version + 1 }) := by
      unfold add_template_to_category
      rw [hfind]
      simp [hvalid', hnodup']
    rw [heq]
    exact ⟨rfl, findCategory_replaceFirst store category _ hrcat r hfind⟩
  · intro hfound
    have hfound' : ∃ a ∈ r.templates, a.code = tcode := by
      simpa using hfound
    have heq : delete_template_from_category store category tcode now =
        (.ok (), replaceFirst store category
          { r with templates := deactivateFirst r.templates tcode,
                   updated_at := some now, version := r.version + 1 }) := by
      unfold delete_template_from_category
      rw [hfind]
      simp [hvalid', hfound']
    rw [heq]
    exact ⟨rfl, findCategory_replaceFirst store category _ hrcat r hfind⟩

/-- Witness for `C6_version_monotonic` on a one-record store at version
2, previously stamped at time 3, clock now 10. -/
theorem C6_version_monotonic_witness :
    ((update_category_templates
        [{ category := "goals",
           templates := [{ code := "a", label := "A", is_active := some true }],
           version := 2, created_at := 0, updated_at := some 3 }]
        "goals" [] 10).1 = .ok () ∧
      findCategory (update_category_templates
        [{ category := "goals",
           templates := [{ code := "a", label := "A", is_active := some true }],
           version := 2, created_at := 0, updated_at := some 3 }]
        "goals" [] 10).2 "goals" =
        some { category := "goals", templates := [], version := 3,
               created_at := 0, updated_at := some 10 }) ∧
    ((delete_template_from_category
        [{ category := "goals",
           templates := [{ code := "a", label := "A", is_active := some true }],
           version := 2, created_at := 0, updated_at := some 3 }]
        "goals" "a" 10).1 = .ok () ∧
      findCategory (delete_template_from_category
        [{ category := "goals",
           templates := [{ code := "a", label := "A", is_active := some true }],
           version := 2, created_at := 0, updated_at := some 3 }]
        "goals" "a" 10).2 "goals" =
        some { category := "goals",
               templates := [{ code := "a", label := "A", is_active := some false }],
               version := 3, created_at := 0, updated_at := some 10 }) := by
  have h := C6_version_monotonic
    [{ category := "goals",
       templates := [{ code := "a", label := "A", is_active := some true }],
       version := 2, created_at := 0, updated_at := some 3 }]
    "goals"
    { category := "goals",
      templates := [{ code := "a", label := "A", is_active := some true }],
      version := 2, created_at := 0, updated_at := some 3 }
    10 [] { code := "z", label := "Z" } "a"
    (by decide) rfl
    (by intro t ht; simp at ht; omega)
  exact ⟨h.1, h.2.2.1 (by decide)⟩

/-- C8: a user with no profile record gets exactly the fixed
not-started status — welcome current, breathe next, nothing completed,
0%, missing ["profile"] — and no error. -/
theorem C8_no_profile :
    get_onboarding_status none =
      { is_completed := false, has_profile := false, personalized_at := none,
        completion_percentage := 0, missing_fields := ["profile"],
        current_screen := some "welcome", next_screen := some "breathe",
        completed_screens := [], onboarding_started_at := none } := rfl

/-- C7: a profile with `personalized_at` set, all three required list
fields non-empty and marker "completed" computes the fully-completed
status: 100%, no missing fields, no current/next screen, and the full
fixed screen sequence. -/
theorem C7_completed_profile (p : UserProfile) (t : Nat)
    (h1 : p.personalized_at = some t)
    (hg : (get_list_field p "goals").isEmpty = false)
    (hc : (get_list_field p "challenges").isEmpty = false)
    (hp : (get_list_field p "practice_preferences").isEmpty = false)
    (hs : p.onboarding_screen = some "completed") :
    get_onboarding_status (some p) =
      { is_completed := true, has_profile := true, personalized_at := some t,
        completion_percentage := 100, missing_fields := [],
        current_screen := none, next_screen := none,
        completed_screens := ["welcome", "breathe", "personalize"],
        onboarding_started_at := p.onboarding_started_at } := by
  have hstored : normalizeStoredScreen p.onboarding_screen = some "completed" := by
    rw [hs]; rfl
  have hcompleted : completedScreensOf p = ONBOARDING_SCREENS := by
    unfold completedScreensOf
    rw [hstored]
    simp [completedFromStored, ONBOARDING_SCREENS]
  have hmissing : missingFieldsOf p = [] := by
    unfold missingFieldsOf
    simp [List.filter, hg, hc, hp]
  have hcurrent : currentScreenOf p = some "completed" := by
    unfold currentScreenOf
    rw [hstored]
    rfl
  have hdist : ((ONBOARDING_SCREENS.dedup).filter
      (fun s => ONBOARDING_SCREENS.contains s)).length = 3 := by decide
  have hpct : completionPct p = 100 := by
    unfold completionPct
    simp only [hcompleted, hmissing]
    rw [hdist]
    norm_num [ONBOARDING_SCREENS]
    have hx : (0:ℚ) ≤ (filledOptionalCount p : ℚ) / 6 * 20 := by positivity
    rw [min_eq_right hx]
    norm_num
  unfold get_onboarding_status
  simp only [hcompleted, hcurrent, hmissing, hpct, h1]
  simp [ONBOARDING_SCREENS]

/-- Witness for `C7_completed_profile` on a concrete completed
profile. -/
theorem C7_completed_profile_witness :
    get_onboarding_status (some
      { personalization_data :=
          [("goals", PValue.vList [PValue.vStr "g"]),
           ("challenges", PValue.vList [PValue.vStr "c"]),
           ("practice_preferences", PValue.vList [PValue.vStr "p"])],
        onboarding_screen := some "completed",
        onboarding_started_at := some 1, personalized_at := some 5 }) =
      { is_completed := true, has_profile := true, personalized_at := some 5,
        completion_percentage := 100, missing_fields := [],
        current_screen := none, next_screen := none,
        completed_screens := ["welcome", "breathe", "personalize"],
        onboarding_started_at := some 1 } :=
  C7_completed_profile
    { personalization_data :=
        [("goals", PValue.vList [PValue.vStr "g"]),
         ("challenges", PValue.vList [PValue.vStr "c"]),
         ("practice_preferences", PValue.vList [PValue.vStr "p"])],
      onboarding_screen := some "completed",
      onboarding_started_at := some 1, personalized_at := some 5 }
    5 rfl rfl rfl rfl rfl

end Veya
